import Mathlib

/-!
  # OGRGeometryCollection: shallow embedding

  A shallow embedding of `src/ogr/ogrgeometrycollection.cpp` (the
  OGRGeometryCollection class of the OGR geometry subsystem): the owning
  element container, its mutation operations, the WKB and WKT decoders with
  their recursion guards, the WKB encoder and size computation, and the
  recursive aggregate queries (IsEmpty, Equals, hasEmptyParts,
  removeEmptyParts).

  Modelling conventions, used throughout:
  * Machine integers become `Nat` (sizes, counts, type codes) or `Int`
    (signed indexes).  The `size_t(-1)` "unknown length" sentinel becomes
    `Option Nat` with `none` for the sentinel.
  * Byte buffers become `List Nat`; a read past the end of the buffer
    yields byte `0` (the C code would read out of bounds there; no claim
    depends on such reads).
  * The element array `papoGeoms` together with `nGeomCount` becomes a
    `List (Option Geom)` plus a `Nat` count: `none` models a null pointer
    slot, exactly as left by `VSI_CALLOC` during WKB import.  For the
    in-place `memmove` compaction of `removeGeometry` the physical slot
    beyond the decremented count is never read again, so the model drops
    it (`List.eraseIdx`).
  * Functions of the geometry base class or of the leaf geometry kinds
    (point, curve, surface, ...) are NOT part of the source file; they are
    either parameters of the embedded functions or definitions whose doc
    comment starts with `Modelled from the spec:`.
  * Object destruction (`delete`) and ownership transfer are not
    observable in a value semantics; the embedding keeps the observable
    content (what is stored, what is returned) only.
-/

/-- OGRErr error codes (ogr_core.h), restricted to the ones this file uses. -/
inductive OGRErr where
  | NONE
  | NOT_ENOUGH_DATA
  | NOT_ENOUGH_MEMORY
  | UNSUPPORTED_GEOMETRY_TYPE
  | CORRUPT_DATA
  | FAILURE
deriving DecidableEq, Repr

/-- The data of a leaf geometry (a point, curve, surface, ... sub-geometry)
as the collection code observes it through the geometry capability
interface: its flat type tag, its dimensionality flags, whether it is
empty, its own WKB size, and whether it reports nested empty parts. -/
structure LeafGeom where
  tag : Nat
  z : Bool
  m : Bool
  isEmptyB : Bool
  wkbSize : Nat
  hasEmptyPartsB : Bool
deriving DecidableEq, Repr

/-- A geometry: either a leaf (handled through the capability interface)
or a geometry collection with its 3D flag, its measured flag and its
ordered element sequence. -/
inductive Geom where
  | leaf (l : LeafGeom)
  | coll (z : Bool) (m : Bool) (subs : List Geom)

/-- The wire-format dialect selector (OGRwkbVariant). -/
inductive WkbVariant where
  | oldOgc
  | iso
  | postGIS1
deriving DecidableEq, Repr

/-- WKB byte order (OGRwkbByteOrder): big endian (XDR) or little endian
(NDR). -/
inductive ByteOrder where
  | XDR
  | NDR
deriving DecidableEq, Repr

/-- The 25D flag bit of the internal geometry type encoding
(wkb25DBitInternalUse = 0x80000000). -/
def wkb25DBit : Nat := 2147483648

/-- INT_MAX, the maximal representable 32-bit signed element count. -/
def intMax : Nat := 2147483647

/-- Modelled from the spec: wkbFlatten of ogr_core.h (outside this source
file) strips the 25D bit and the ISO 1000/2000/3000 dimensionality ranges
from an internal geometry type code. -/
def wkbFlattenCode (t : Nat) : Nat := (t % wkb25DBit) % 1000

/-- Modelled from the spec: wkbHasZ of ogr_core.h (outside this source
file): a code is 3D when it carries the 25D bit or sits in the ISO
Z / ZM numeric ranges. -/
def wkbHasZ (t : Nat) : Bool :=
  t / wkb25DBit % 2 == 1
    || (1000 ≤ t % wkb25DBit && t % wkb25DBit < 2000)
    || (3000 ≤ t % wkb25DBit && t % wkb25DBit < 4000)

/-- Modelled from the spec: wkbHasM of ogr_core.h (outside this source
file): a code is measured when it sits in the ISO M / ZM numeric
ranges. -/
def wkbHasM (t : Nat) : Bool :=
  2000 ≤ t % wkb25DBit && t % wkb25DBit < 4000

/-- The internal geometry type code built from a flat tag and the two
dimensionality flags, following getGeometryType of the source (lines
149-160): ZM uses the ISO 3000 range, M the 2000 range, and plain 3D the
legacy 25D bit. -/
def getGeometryTypeCode (flat : Nat) (z m : Bool) : Nat :=
  if z && m then 3000 + flat
  else if m then 2000 + flat
  else if z then wkb25DBit + flat
  else flat

/-- Modelled from the spec: getIsoGeometryType of the geometry base class
(outside this source file): the ISO dialect encodes Z and M through the
1000/2000/3000 numeric ranges instead of the 25D bit. -/
def getIsoGeometryTypeCode (flat : Nat) (z m : Bool) : Nat :=
  flat + (if z then 1000 else 0) + (if m then 2000 else 0)

/-- Modelled from the spec: OGR_GT_IsSubClassOf(t, wkbGeometryCollection)
(outside this source file): the nested-collection kinds are MultiPoint 4,
MultiLineString 5, MultiPolygon 6, GeometryCollection 7, MultiCurve 11 and
MultiSurface 12. -/
def isSubClassOfGeometryCollection (t : Nat) : Bool :=
  let f := wkbFlattenCode t
  f == 4 || f == 5 || f == 6 || f == 7 || f == 11 || f == 12

/-- getGeometryType: for a collection the code is built from the flat
collection tag 7 and the two flags (source lines 149-160); for a leaf the
capability interface exposes a type tag carrying its dimensionality bits
(modelled from the spec). -/
def getGeometryTypeG : Geom → Nat
  | .leaf l => getGeometryTypeCode l.tag l.z l.m
  | .coll z m _ => getGeometryTypeCode 7 z m

/-- Is3D: reads the 3D flag (a leaf exposes it through the capability
interface). -/
def is3DG : Geom → Bool
  | .leaf l => l.z
  | .coll z _ _ => z

/-- IsMeasured: reads the measured flag. -/
def isMeasuredG : Geom → Bool
  | .leaf l => l.m
  | .coll _ m _ => m

mutual

/-- IsEmpty (source lines 1393-1401): a collection is empty iff every
element reports itself empty; a leaf answers through the capability
interface. -/
def isEmptyG : Geom → Bool
  | .leaf l => l.isEmptyB
  | .coll _ _ subs => isEmptyL subs

/-- The element loop of IsEmpty: return FALSE at the first non-empty
element, TRUE after the loop. -/
def isEmptyL : List Geom → Bool
  | [] => true
  | g :: gs => isEmptyG g && isEmptyL gs

end

mutual

/-- hasEmptyParts (source lines 496-504): true if any element is empty or
itself reports nested empty parts; a leaf answers through the capability
interface. -/
def hasEmptyPartsG : Geom → Bool
  | .leaf l => l.hasEmptyPartsB
  | .coll _ _ subs => hasEmptyPartsL subs

/-- The element loop of hasEmptyParts, short-circuiting on the first
true. -/
def hasEmptyPartsL : List Geom → Bool
  | [] => false
  | g :: gs => (isEmptyG g || hasEmptyPartsG g) || hasEmptyPartsL gs

end

mutual

/-- removeEmptyParts (source lines 510-518): for each element, first
recurse into the element, then drop it when it is empty afterwards.  A
leaf recurses through its own capability, here the parameter `lrep`
(modelled from the spec).  The source iterates indexes downward with
removeGeometry(i, true); each element is visited exactly once and the
survivors keep their order, which is the map-and-filter below. -/
def removeEmptyPartsG (lrep : LeafGeom → LeafGeom) : Geom → Geom
  | .leaf l => .leaf (lrep l)
  | .coll z m subs => .coll z m (removeEmptyPartsL lrep subs)

/-- The element loop of removeEmptyParts. -/
def removeEmptyPartsL (lrep : LeafGeom → LeafGeom) : List Geom → List Geom
  | [] => []
  | g :: gs =>
    let g2 := removeEmptyPartsG lrep g
    if isEmptyG g2 then removeEmptyPartsL lrep gs
    else g2 :: removeEmptyPartsL lrep gs

end

/-- getNumGeometries (source lines 224-228). -/
def getNumGeometriesG : Geom → Nat
  | .leaf _ => 0
  | .coll _ _ subs => subs.length

mutual

/-- Equals (source lines 1040-1065).  The pointer-identity shortcut
(poOther == this) is not representable in a value semantics and is
subsumed by the remaining checks, which are reflexive.  A mixed
leaf/collection comparison fails the type-tag check in the source
(different concrete classes); two leaves compare through the element
capability, modelled from the spec as structural equality. -/
def geomEquals : Geom → Geom → Bool
  | .leaf a, .leaf b => a == b
  | .leaf _, .coll _ _ _ => false
  | .coll _ _ _, .leaf _ => false
  | .coll z1 m1 s1, .coll z2 m2 s2 =>
    if getGeometryTypeCode 7 z1 m1 != getGeometryTypeCode 7 z2 m2 then false
    else if isEmptyL s1 && isEmptyL s2 then true
    else if s1.length != s2.length then false
    else geomListEquals s1 s2

/-- The pairwise element loop of Equals over the stored order. -/
def geomListEquals : List Geom → List Geom → Bool
  | [], [] => true
  | a :: as1, b :: bs1 => geomEquals a b && geomListEquals as1 bs1
  | _, _ => false

end

mutual

/-- WkbSize (source lines 527-538): 9 preamble bytes plus the sum of every
element WkbSize; a leaf answers through the capability interface. -/
def wkbSizeG : Geom → Nat
  | .leaf l => l.wkbSize
  | .coll _ _ subs => 9 + wkbSizeL subs

/-- The accumulation loop of WkbSize over the elements. -/
def wkbSizeL : List Geom → Nat
  | [] => 0
  | g :: gs => wkbSizeG g + wkbSizeL gs

end

mutual

/-- set3D (source lines 1134-1143): recurse into every element, then set
the own flag; a leaf sets its flag through the capability interface
(modelled from the spec). -/
def set3DG (b : Bool) : Geom → Geom
  | .leaf l => .leaf { l with z := b }
  | .coll _ m subs => .coll b m (set3DL b subs)

/-- The element loop of set3D. -/
def set3DL (b : Bool) : List Geom → List Geom
  | [] => []
  | g :: gs => set3DG b g :: set3DL b gs

end

mutual

/-- setMeasured (source lines 1145-1154), as set3D. -/
def setMeasuredG (b : Bool) : Geom → Geom
  | .leaf l => .leaf { l with m := b }
  | .coll z _ subs => .coll z b (setMeasuredL b subs)

/-- The element loop of setMeasured. -/
def setMeasuredL (b : Bool) : List Geom → List Geom
  | [] => []
  | g :: gs => setMeasuredG b g :: setMeasuredL b gs

end

mutual

/-- Structural Boolean equality on geometries, standing in for the C++
pointer-identity test of operator= (this != &other): two distinct objects
may still be equal values, but no claim depends on that corner. -/
def beqGeom : Geom → Geom → Bool
  | .leaf a, .leaf b => a == b
  | .coll z1 m1 s1, .coll z2 m2 s2 => z1 == z2 && m1 == m2 && beqGeomL s1 s2
  | _, _ => false

/-- Structural Boolean equality on geometry lists. -/
def beqGeomL : List Geom → List Geom → Bool
  | [], [] => true
  | a :: as1, b :: bs1 => beqGeom a b && beqGeomL as1 bs1
  | _, _ => false

end

/-- The mutable state of an OGRGeometryCollection object: the inherited
base-geometry state (dimensionality flags and the spatial reference
association, the latter opaque and modelled as an optional identifier),
the flat type tag of the concrete collection class (7 for the base class;
derived classes such as MultiPoint differ), the element count
`nGeomCount` and the element array `papoGeoms`, whose `none` entries model
null pointer slots. -/
structure CollState where
  flags3D : Bool
  flagsM : Bool
  srs : Option Nat
  flatType : Nat
  nGeomCount : Nat
  papoGeoms : List (Option Geom)

/-- Structural Boolean equality on collection states (see beqGeom). -/
def beqCollState (a b : CollState) : Bool :=
  a.flags3D == b.flags3D && a.flagsM == b.flagsM && a.srs == b.srs
    && a.flatType == b.flatType && a.nGeomCount == b.nGeomCount
    && (a.papoGeoms.length == b.papoGeoms.length
        && List.all (a.papoGeoms.zip b.papoGeoms) (fun p =>
             match p with
             | (some x, some y) => beqGeom x y
             | (none, none) => true
             | _ => false))

/-- A freshly constructed base OGRGeometryCollection(): no flags, no
elements. -/
def emptyGC : CollState :=
  { flags3D := false, flagsM := false, srs := none, flatType := 7
    nGeomCount := 0, papoGeoms := [] }

/-- The geometry value a collection object holds once fully and
successfully built: its flags and the elements of its stored range.
Successful import paths never leave a null slot in the stored range, so
`reduceOption` drops nothing there. -/
def CollState.toGeom (s : CollState) : Geom :=
  .coll s.flags3D s.flagsM (s.papoGeoms.take s.nGeomCount).reduceOption

/-- getGeometryType of a collection object (source lines 149-160),
from its own flat tag and flags. -/
def CollState.typeCode (s : CollState) : Nat :=
  getGeometryTypeCode s.flatType s.flags3D s.flagsM

/-- Modelled from the spec: HomogenizeDimensionalityWith of the geometry
base class (outside this source file), the Dimensionality Homogenizer:
the collection flags become the union with the new element flags, and the
element is promoted to match the collection when the collection is
already 3D / measured. -/
def homogenizeDimensionalityWith (st : CollState) (g : Geom) : CollState × Geom :=
  let st1 := { st with flags3D := st.flags3D || is3DG g,
                       flagsM := st.flagsM || isMeasuredG g }
  let g1 := if st1.flags3D && !(is3DG g) then set3DG true g else g
  let g2 := if st1.flagsM && !(isMeasuredG g1) then setMeasuredG true g1 else g1
  (st1, g2)

/-- addGeometryDirectly (source lines 348-383), with the virtual
isCompatibleSubType passed as the policy parameter `pol`: reject an
incompatible type tag with UNSUPPORTED_GEOMETRY_TYPE leaving the state
untouched; reject an element count at INT_MAX; otherwise homogenize
dimensionality, append the element and increment the count.  The
reallocation-failure branch cannot fail in the model. -/
def addGeometryDirectly (pol : Nat → Bool) (st : CollState) (g : Geom) :
    OGRErr × CollState :=
  if !(pol (getGeometryTypeG g)) then (.UNSUPPORTED_GEOMETRY_TYPE, st)
  else if st.nGeomCount == intMax then (.FAILURE, st)
  else
    let (st1, g1) := homogenizeDimensionalityWith st g
    (.NONE, { st1 with papoGeoms := st1.papoGeoms ++ [some g1],
                       nGeomCount := st1.nGeomCount + 1 })

/-- clone (deep copy): in a value semantics a deep clone is the value
itself; clone failure (allocation) cannot happen in the model. -/
def cloneG (g : Geom) : Geom := g

/-- addGeometry (source lines 307-319): clone the borrowed element, hand
the clone to addGeometryDirectly; on failure the clone is destroyed
(in the model: simply not stored anywhere). -/
def addGeometry (pol : Nat → Bool) (st : CollState) (g : Geom) :
    OGRErr × CollState :=
  let poClone := cloneG g
  let r := addGeometryDirectly pol st poClone
  r

/-- removeGeometry (source lines 438-461): FAILURE outside [-1, count);
-1 removes every element from the last one down; otherwise the element at
the index is dropped (destroyed when bDelete, unobservable here) and the
elements above it shift down one slot (memmove, modelled by eraseIdx on
the stored range). -/
def removeGeometry (st : CollState) (iGeom : Int) (bDelete : Bool) :
    OGRErr × CollState :=
  if iGeom < -1 || (st.nGeomCount : Int) ≤ iGeom then (.FAILURE, st)
  else if iGeom == -1 then
    -- the loop removes the last element until the count reaches zero
    (.NONE, { st with nGeomCount := 0,
                      papoGeoms := st.papoGeoms.take 0 })
  else
    (.NONE, { st with nGeomCount := st.nGeomCount - 1,
                      papoGeoms := st.papoGeoms.eraseIdx iGeom.toNat })

/-- stealGeometry (source lines 481-490): null outside [0, count);
otherwise detach the element at the index (the slot is nulled, then the
sequence compacted through removeGeometry) and hand it to the caller
without destroying it. -/
def stealGeometry (st : CollState) (iGeom : Int) : Option Geom × CollState :=
  if iGeom < 0 || (st.nGeomCount : Int) ≤ iGeom then (none, st)
  else
    let poSubGeom := st.papoGeoms.getD iGeom.toNat none
    let st1 := { st with papoGeoms := st.papoGeoms.set iGeom.toNat none }
    let r := removeGeometry st1 iGeom true
    (poSubGeom, r.2)

/-- operator= (source lines 83-113): after the identity shortcut, first
overwrite the inherited base-geometry state from the source
(OGRGeometry::operator=, outside this source file, modelled from the
spec as copying the dimensionality flags and the spatial reference),
then scan the source elements against the compatibility policy and bail
out on the first incompatible one leaving the element array and count
untouched; only then rebuild the element array as clones of the source
elements.  The source does not release the previous element array
(unobservable in a value semantics). -/
def assignOp (pol : Nat → Bool) (dst src : CollState) : CollState :=
  if beqCollState dst src then dst
  else
    let dst1 := { dst with flags3D := src.flags3D, flagsM := src.flagsM,
                           srs := src.srs }
    if (src.papoGeoms.take src.nGeomCount).all
         (fun og => og.all (fun g => pol (getGeometryTypeG g))) then
      { dst1 with nGeomCount := src.nGeomCount,
                  papoGeoms := (src.papoGeoms.take src.nGeomCount).map
                    (Option.map cloneG) }
    else dst1

/-- The C test `nSize < 9 && nSize != size_t(-1)` on the Option encoding
of the length: true only when the length is known and below 9. -/
def sizeBelow9 (nSize : Option Nat) : Bool :=
  match nSize with
  | some s => decide (s < 9)
  | none => false

/-- Read the byte at an offset of a buffer; past the end reads 0 (the C
code would read out of bounds there). -/
def byteAt (paby : List Nat) (i : Nat) : Nat := paby.getD i 0 % 256

/-- Read a 4-byte unsigned integer at an offset, little endian when the
flag holds, big endian otherwise. -/
def readU32 (littleEndian : Bool) (paby : List Nat) (off : Nat) : Nat :=
  if littleEndian then
    byteAt paby off + 256 * byteAt paby (off + 1)
      + 65536 * byteAt paby (off + 2) + 16777216 * byteAt paby (off + 3)
  else
    16777216 * byteAt paby off + 65536 * byteAt paby (off + 1)
      + 256 * byteAt paby (off + 2) + byteAt paby (off + 3)

/-- Modelled from the spec: OGRReadWKBGeometryType (outside this source
file) peeks the byte-order marker and the 4-byte type code of a
sub-geometry without a full decode: an invalid marker or a nonsensical
code is corrupt, the vendor-legacy dialect remaps its two composite
codes back, and the result is normalized to the internal encoding. -/
def OGRReadWKBGeometryType (paby : List Nat) (variant : WkbVariant) :
    Except OGRErr Nat :=
  let bo := byteAt paby 0
  if !(bo == 0 || bo == 1) then .error .CORRUPT_DATA
  else
    let raw := readU32 (bo == 1) paby 1
    let z25 := raw / wkb25DBit % 2 == 1
    let base := raw % wkb25DBit
    let base := if variant == .postGIS1 && base == 14 then 11
                else if variant == .postGIS1 && base == 15 then 12
                else base
    let flat := base % 1000
    let zIso := (1000 ≤ base && base < 2000) || (3000 ≤ base && base < 4000)
    let mIso := 2000 ≤ base && base < 4000
    if 4000 ≤ base || flat == 0 || 17 < flat then .error .CORRUPT_DATA
    else .ok (getGeometryTypeCode flat (z25 || zIso) mIso)

/-- Modelled from the spec: importPreambleOfCollectionFromWkb of the
geometry base class (outside this source file), step 1 of the decode
algorithm: NOT_ENOUGH_DATA when fewer than the 9 preamble bytes are
available; parse and validate the byte-order marker and the type code
(which must flatten to the type of this collection object) and take the
dimensionality flags from it; CORRUPT_DATA when the count field is
negative or too large for the available length (each element needs at
least 9 bytes).  Returns the element count, the flags of the type code
and the remaining length after the preamble. -/
def importPreambleOfCollectionFromWkb (expectedFlat : Nat) (paby : List Nat)
    (nSize : Option Nat) (variant : WkbVariant) :
    Except OGRErr (Nat × Bool × Bool × Option Nat) :=
  if sizeBelow9 nSize then
    .error .NOT_ENOUGH_DATA
  else
    match OGRReadWKBGeometryType paby variant with
    | .error _ => .error .CORRUPT_DATA
    | .ok code =>
      if wkbFlattenCode code != expectedFlat then .error .CORRUPT_DATA
      else
        let cnt := readU32 (byteAt paby 0 == 1) paby 5
        if wkb25DBit ≤ cnt then .error .CORRUPT_DATA
        else
          match nSize with
          | some s =>
            if s - 9 < 9 * cnt then .error .CORRUPT_DATA
            else .ok (cnt, wkbHasZ code, wkbHasM code, some (s - 9))
          | none => .ok (cnt, wkbHasZ code, wkbHasM code, none)

/-- Modelled from the spec: OGRGeometryFactory::createGeometry (outside
this source file) applied to a nested-collection type code: a fresh,
empty collection object of that kind carrying the dimensionality flags
of the code. -/
def createGeometryColl (code : Nat) : CollState :=
  { flags3D := wkbHasZ code, flagsM := wkbHasM code, srs := none,
    flatType := wkbFlattenCode code, nGeomCount := 0, papoGeoms := [] }

/-- The external generic leaf decoder OGRGeometryFactory::createFromWkb
(outside this source file), as a parameter: buffer, declared remaining
length and dialect to a decoded geometry plus its consumed byte count,
or a failure. -/
def WkbLeafDecoder : Type :=
  List Nat → Option Nat → WkbVariant → Except OGRErr (Geom × Nat)

/-- The element loop of importFromWkbInternal (source lines 585-664),
iteration `iGeom` with `remaining` iterations left, the recursive descent
into nested collections abstracted as `subImport`.  Faithfully to the
source: the loop-top remaining-size check and a type-peek failure return
WITHOUT truncating nGeomCount; a policy rejection or an element decode
failure truncate nGeomCount to iGeom (and the partial element is
destroyed, unobservable here); after a successful leaf decode the element
is promoted to the 3D / measured flags of the outer collection; a stored
element's flags are merged into the collection's; the consumed bytes are
subtracted from the known remaining size and added to the offset. -/
def wkbGeomLoop (pol : Nat → Bool) (dec : WkbLeafDecoder)
    (subImport : List Nat → Option Nat → CollState → OGRErr × CollState × Nat)
    (variant : WkbVariant) (paby : List Nat) :
    Nat → Nat → Nat → Option Nat → CollState → OGRErr × CollState × Nat
  | 0, _, nDataOffset, _, st => (.NONE, st, nDataOffset)
  | remaining + 1, iGeom, nDataOffset, nSize, st =>
    let pabySubData := paby.drop nDataOffset
    if sizeBelow9 nSize then
      (.NOT_ENOUGH_DATA, st, 0)
    else
      match OGRReadWKBGeometryType pabySubData variant with
      | .error e => (e, st, 0)
      | .ok eSubGeomType =>
        if !(pol eSubGeomType) then
          (.CORRUPT_DATA, { st with nGeomCount := iGeom }, 0)
        else
          let res : Except OGRErr (Geom × Nat) :=
            if isSubClassOfGeometryCollection eSubGeomType then
              match subImport pabySubData nSize (createGeometryColl eSubGeomType) with
              | (.NONE, sub1, consumed) => .ok (sub1.toGeom, consumed)
              | (e, _, _) => .error e
            else
              match dec pabySubData nSize variant with
              | .error e => .error e
              | .ok (g, consumed) =>
                let g := if st.flags3D && !(is3DG g) then set3DG true g else g
                let g := if st.flagsM && !(isMeasuredG g) then setMeasuredG true g
                         else g
                .ok (g, consumed)
          match res with
          | .error e => (e, { st with nGeomCount := iGeom }, 0)
          | .ok (g, consumed) =>
            let st2 := { st with
              papoGeoms := st.papoGeoms.set iGeom (some g),
              flags3D := st.flags3D || is3DG g,
              flagsM := st.flagsM || isMeasuredG g }
            wkbGeomLoop pol dec subImport variant paby remaining (iGeom + 1)
              (nDataOffset + consumed) (nSize.map (fun s => s - consumed)) st2

/-- The part of importFromWkbInternal after the recursion guard (source
lines 560-667): run the collection preamble, merge its dimensionality
flags, set nGeomCount and allocate the null-initialized element array
(the allocation cannot fail in the model), then run the element loop at
data offset 9. -/
def importFromWkbBody (pol : Nat → Bool) (dec : WkbLeafDecoder)
    (subImport : List Nat → Option Nat → CollState → OGRErr × CollState × Nat)
    (paby : List Nat) (nSize : Option Nat) (variant : WkbVariant)
    (st : CollState) : OGRErr × CollState × Nat :=
  match importPreambleOfCollectionFromWkb st.flatType paby nSize variant with
  | .error e => (e, st, 0)
  | .ok (cnt, z, m, nSize1) =>
    let st1 := { st with
      flags3D := st.flags3D || z, flagsM := st.flagsM || m,
      nGeomCount := cnt, papoGeoms := List.replicate cnt none }
    wkbGeomLoop pol dec subImport variant paby cnt 0 9 nSize1 st1

/-- importFromWkbInternal (source lines 545-668): nBytesConsumedOut is 0
on every failure path; a call at recursion level 32 fails with
CORRUPT_DATA before consuming anything; otherwise the body runs, with
nested collections entering this same decoder at level + 1.  The `fuel`
argument is only a structural termination device (the C++ loop is bounded
by the recursion guard and the finite input); exhausted fuel returns the
same value as the recursion guard and every theorem below holds for every
fuel. -/
def importFromWkbInternal (pol : Nat → Bool) (dec : WkbLeafDecoder) :
    Nat → List Nat → Option Nat → Nat → WkbVariant → CollState →
    OGRErr × CollState × Nat
  | 0, _, _, _, _, st => (.CORRUPT_DATA, st, 0)
  | fuel + 1, paby, nSize, nRecLevel, variant, st =>
    if nRecLevel == 32 then (.CORRUPT_DATA, st, 0)
    else
      importFromWkbBody pol dec
        (fun pa ns sub =>
          importFromWkbInternal pol dec fuel pa ns (nRecLevel + 1) variant sub)
        paby nSize variant st

/-- importFromWkb (source lines 679-687): the public entry starts the
recursion at level 0. -/
def importFromWkb (pol : Nat → Bool) (dec : WkbLeafDecoder) (fuel : Nat)
    (paby : List Nat) (nSize : Option Nat) (variant : WkbVariant)
    (st : CollState) : OGRErr × CollState × Nat :=
  importFromWkbInternal pol dec fuel paby nSize 0 variant st

/-- The export options (OGRwkbExportOptions), restricted to the fields the
collection code reads: byte order and dialect. -/
structure WkbExportOptions where
  eByteOrder : ByteOrder
  eWkbVariant : WkbVariant
deriving DecidableEq, Repr

/-- Modelled from the spec: the OGR_SWAP test of cpl_port.h (outside this
source file) on a little-endian host: swapping is needed exactly for the
big-endian (XDR) order. -/
def OGR_SWAP (bo : ByteOrder) : Bool := bo == .XDR

/-- CPL_SWAP32: reverse the four bytes of a 32-bit value. -/
def swap32 (v : Nat) : Nat :=
  v % 256 * 16777216 + v / 256 % 256 * 65536
    + v / 65536 % 256 * 256 + v / 16777216 % 256

/-- The four bytes of a 32-bit value in host (little-endian) order, as
memcpy writes them. -/
def le32 (v : Nat) : List Nat :=
  [v % 256, v / 256 % 256, v / 65536 % 256, v / 16777216 % 256]

/-- A 4-byte write honoring the requested byte order: the value is
CPL_SWAP32-ed first when OGR_SWAP holds, then written in host order. -/
def write32 (bo : ByteOrder) (v : Nat) : List Nat :=
  le32 (if OGR_SWAP bo then swap32 v else v)

/-- Modelled from the spec: the vendor-legacy dialect code for MultiCurve
(a POSTGIS15 constant of ogr_p.h, outside this source file). -/
def postgis15MultiCurve : Nat := 14

/-- Modelled from the spec: the vendor-legacy dialect code for
MultiSurface (a POSTGIS15 constant of ogr_p.h, outside this source
file). -/
def postgis15MultiSurface : Nat := 15

mutual

/-- exportToWkb (source lines 695-789): patch an old-OGC request to ISO
for the two composite multi types (never the case for the base collection
tag 7, kept for faithfulness); write the byte-order marker; write the
type code — ISO numeric ranges for the ISO dialect, the vendor remap plus
the 25D high bit for the vendor-legacy dialect, the internal code
otherwise — then the element count, then every element in order (the
coordinate-dimension diagnostic of the source is a non-fatal message with
no effect on the bytes).  A leaf serializes itself through the capability
interface, the parameter `lexp`. -/
def exportToWkbG (lexp : WkbExportOptions → LeafGeom → List Nat)
    (opts : WkbExportOptions) : Geom → List Nat
  | .leaf l => lexp opts l
  | .coll z m subs =>
    let t0 := getGeometryTypeCode 7 z m
    let varPatched :=
      if opts.eWkbVariant == .oldOgc
          && (wkbFlattenCode t0 == 11 || wkbFlattenCode t0 == 12) then
        WkbVariant.iso
      else opts.eWkbVariant
    let opts1 : WkbExportOptions :=
      { eByteOrder := opts.eByteOrder, eWkbVariant := varPatched }
    let nGType :=
      if opts1.eWkbVariant == .iso then getIsoGeometryTypeCode 7 z m
      else if opts1.eWkbVariant == .postGIS1 then
        let bIs3D := wkbHasZ t0
        let f0 := wkbFlattenCode t0
        let f1 := if f0 == 11 then postgis15MultiCurve
                  else if f0 == 12 then postgis15MultiSurface
                  else f0
        if bIs3D then f1 + wkb25DBit else f1
      else t0
    (if opts1.eByteOrder == .XDR then 0 else 1)
      :: (write32 opts1.eByteOrder nGType
          ++ (write32 opts1.eByteOrder subs.length
              ++ exportToWkbSubs lexp opts1 subs))

/-- The element serialization loop of exportToWkb: every element in
order, back to back. -/
def exportToWkbSubs (lexp : WkbExportOptions → LeafGeom → List Nat)
    (opts : WkbExportOptions) : List Geom → List Nat
  | [] => []
  | g :: gs => exportToWkbG lexp opts g ++ exportToWkbSubs lexp opts gs

end

/-- The running write offset of exportToWkb (source lines 764-785):
nOffset starts at 9 after the preamble and count, and each element
advances it by that element's own WkbSize. -/
def exportFinalOffset (subs : List Geom) : Nat :=
  subs.foldl (fun o g => o + wkbSizeG g) 9

/-- A WKT token, as the external tokenizer OGRWktReadToken (outside this
source file) delivers them: a parenthesis, a comma, a word, or the empty
token at the end of the input. -/
inductive Tok where
  | lparen
  | rparen
  | comma
  | word (s : String)
  | eof
deriving DecidableEq, Repr

/-- Modelled from the spec: OGRWktReadToken (outside this source file)
pops the next token; at the end of the input it yields the empty
token. -/
def readTok : List Tok → Tok × List Tok
  | [] => (.eof, [])
  | t :: ts => (t, ts)

/-- The collection keyword of the text format. -/
def gcKeyword : String := "GEOMETRYCOLLECTION"

/-- The STARTS_WITH_CI(szToken, "GEOMETRYCOLLECTION") test of the source
(line 846), case-insensitively on a word token. -/
def isGCKeywordTok : Tok → Bool
  | .word s => s.toUpper.startsWith gcKeyword
  | _ => false

/-- The external WKT preamble parser importPreambleFromWkt of the
geometry base class (outside this source file), as a parameter: consumes
the type name, the optional Z / M / ZM suffix and the optional EMPTY
keyword, yielding (hasZ, hasM, isEmpty) and the rest of the input, or a
failure. -/
def WktPreambleFn : Type :=
  List Tok → Except OGRErr (Bool × Bool × Bool × List Tok)

/-- The external generic WKT element parser
OGRGeometryFactory::createFromWkt (outside this source file), as a
parameter: consumes one element from the input, or fails. -/
def WktLeafDecoder : Type :=
  List Tok → Except OGRErr (Geom × List Tok)

/-- The validation-and-insertion step run after each successfully parsed
WKT sub-element (source lines 856-864): when the outer collection is
measured but not 3D and the element is not measured, the import fails
with CORRUPT_DATA (and the element is destroyed by the caller,
unobservable here); otherwise the element goes through the very same
addGeometryDirectly path as direct API use. -/
def wktAfterParse (pol : Nat → Bool) (st : CollState) (g : Geom) :
    OGRErr × CollState :=
  if !st.flags3D && st.flagsM && !(isMeasuredG g) then (.CORRUPT_DATA, st)
  else addGeometryDirectly pol st g

/-- The element loop of importFromWktInternal (source lines 830-878):
peek the next token; a GEOMETRYCOLLECTION keyword enters the recursive
descent `subImport` on a freshly constructed collection, anything else
goes to the generic element parser; a parse failure aborts; otherwise run
the post-parse step, read the delimiter token, continue on a comma, stop
successfully on a closing parenthesis and fail with CORRUPT_DATA on
anything else (source lines 883-884).  The fuel only bounds the loop
structurally (the C++ loop consumes at least the delimiter token per
iteration). -/
def wktLoop (pol : Nat → Bool) (wdec : WktLeafDecoder)
    (subImport : List Tok → CollState → OGRErr × CollState × List Tok) :
    Nat → List Tok → CollState → OGRErr × CollState × List Tok
  | 0, input, st => (.CORRUPT_DATA, st, input)
  | fuel + 1, input, st =>
    let res : Except OGRErr (Geom × List Tok) :=
      if isGCKeywordTok (readTok input).1 then
        match subImport input emptyGC with
        | (.NONE, sub1, rest) => .ok (sub1.toGeom, rest)
        | (e, _, _) => .error e
      else wdec input
    match res with
    | .error e => (e, st, input)
    | .ok (g, rest) =>
      match wktAfterParse pol st g with
      | (.NONE, st1) =>
        match readTok rest with
        | (.comma, rest2) => wktLoop pol wdec subImport fuel rest2 st1
        | (.rparen, rest2) => (.NONE, st1, rest2)
        | (_, rest2) => (.CORRUPT_DATA, st1, rest2)
      | (e, st1) => (e, st1, input)

/-- The part of importFromWktInternal after the recursion guard (source
lines 808-888): run the preamble, merge its dimensionality flags, succeed
immediately on EMPTY, otherwise skip the opening parenthesis token
(unchecked, as in the source) and run the element loop.  The input
position is handed back to the caller only on success (source line 886);
every failure leaves it where the call started. -/
def importFromWktBody (pol : Nat → Bool) (ppre : WktPreambleFn)
    (wdec : WktLeafDecoder)
    (subImport : List Tok → CollState → OGRErr × CollState × List Tok)
    (fuelLoop : Nat) (input : List Tok) (st : CollState) :
    OGRErr × CollState × List Tok :=
  match ppre input with
  | .error e => (e, st, input)
  | .ok (hasZ, hasM, isEmptyFlag, rest) =>
    let st1 := { st with flags3D := st.flags3D || hasZ,
                         flagsM := st.flagsM || hasM }
    if isEmptyFlag then (.NONE, st1, rest)
    else
      match wktLoop pol wdec subImport fuelLoop (readTok rest).2 st1 with
      | (.NONE, st2, rest2) => (.NONE, st2, rest2)
      | (e, st2, _) => (e, st2, input)

/-- importFromWktInternal (source lines 795-889): a call at recursion
level 32 fails with CORRUPT_DATA before consuming any token and before
touching the collection; otherwise the body runs, with nested
GEOMETRYCOLLECTION elements entering this same parser at level + 1.  The
fuel is only a structural termination device; exhausted fuel returns the
same value as the recursion guard. -/
def importFromWktInternal (pol : Nat → Bool) (ppre : WktPreambleFn)
    (wdec : WktLeafDecoder) :
    Nat → List Tok → Nat → CollState → OGRErr × CollState × List Tok
  | 0, input, _, st => (.CORRUPT_DATA, st, input)
  | fuel + 1, input, nRecLevel, st =>
    if nRecLevel == 32 then (.CORRUPT_DATA, st, input)
    else
      importFromWktBody pol ppre wdec
        (fun inp sub =>
          importFromWktInternal pol ppre wdec fuel inp (nRecLevel + 1) sub)
        fuel input st

/-- importFromWkt (source lines 895-899): the public entry starts the
recursion at level 0. -/
def importFromWkt (pol : Nat → Bool) (ppre : WktPreambleFn)
    (wdec : WktLeafDecoder) (fuel : Nat) (input : List Tok) (st : CollState) :
    OGRErr × CollState × List Tok :=
  importFromWktInternal pol ppre wdec fuel input 0 st

/-- Induction over geometries with the induction hypothesis available for
every member of a collection. -/
theorem Geom.recOnMem {P : Geom → Prop}
    (hleaf : ∀ l, P (.leaf l))
    (hcoll : ∀ z m subs, (∀ g, g ∈ subs → P g) → P (.coll z m subs)) :
    ∀ g, P g
  | .leaf l => hleaf l
  | .coll z m subs =>
    hcoll z m subs (fun g _ => Geom.recOnMem hleaf hcoll g)
termination_by g => sizeOf g
decreasing_by
  rename_i hg
  have hlt := List.sizeOf_lt_of_mem hg
  simp only [Geom.coll.sizeOf_spec]
  omega

/-- The IsEmpty element loop is the conjunction of the element
emptiness tests. -/
theorem isEmptyL_eq_true_iff (gs : List Geom) :
    isEmptyL gs = true ↔ ∀ g ∈ gs, isEmptyG g = true := by
  induction gs with
  | nil => simp [isEmptyL]
  | cons g gs ih => simp [isEmptyL, ih]

/-- Claim C10: IsEmpty on a collection returns true exactly when every
contained element reports itself empty; in particular a zero-element
collection is empty, and a collection with a positive count of
individually empty elements is also reported empty. -/
theorem claimC10_IsEmpty_iff_all (z m : Bool) (subs : List Geom) :
    isEmptyG (.coll z m subs) = true ↔ ∀ g ∈ subs, isEmptyG g = true := by
  simp only [isEmptyG]
  exact isEmptyL_eq_true_iff subs

/-- Witness for C10 at a one-element collection holding an empty leaf. -/
theorem claimC10_witness :
    isEmptyG (.coll false false [.leaf ⟨1, false, false, true, 21, false⟩])
        = true ↔
      ∀ g ∈ [Geom.leaf ⟨1, false, false, true, 21, false⟩],
        isEmptyG g = true :=
  claimC10_IsEmpty_iff_all false false [.leaf ⟨1, false, false, true, 21, false⟩]

/-- The building of the internal type codes for the base collection tag is
injective in the two flags. -/
theorem typeCode_inj : ∀ z1 m1 z2 m2 : Bool,
    getGeometryTypeCode 7 z1 m1 = getGeometryTypeCode 7 z2 m2 →
      z1 = z2 ∧ m1 = m2 := by
  decide

/-- The pairwise element loop of Equals, characterized pointwise. -/
theorem geomListEquals_iff (s1 s2 : List Geom) :
    geomListEquals s1 s2 = true ↔
      (s1.length = s2.length ∧
        ∀ i : Nat, ∀ h1 : i < s1.length, ∀ h2 : i < s2.length,
          geomEquals (s1.get ⟨i, h1⟩) (s2.get ⟨i, h2⟩) = true) := by
  induction s1 generalizing s2 with
  | nil =>
    cases s2 with
    | nil => simp [geomListEquals]
    | cons b bs => simp [geomListEquals]
  | cons a as1 ih =>
    cases s2 with
    | nil => simp [geomListEquals]
    | cons b bs =>
      simp only [geomListEquals, Bool.and_eq_true, ih, List.length_cons]
      constructor
      · rintro ⟨hab, hlen, hpt⟩
        refine ⟨by omega, ?_⟩
        intro i h1 h2
        cases i with
        | zero => exact hab
        | succ j => exact hpt j (by omega) (by omega)
      · rintro ⟨hlen, hpt⟩
        refine ⟨hpt 0 (by omega) (by omega), by omega, ?_⟩
        intro j h1 h2
        exact hpt (j + 1) (by omega) (by omega)

/-- The empty leaf used by the concrete examples below: an empty point. -/
def emptyPointLeaf : LeafGeom :=
  { tag := 1, z := false, m := false, isEmptyB := true, wkbSize := 21,
    hasEmptyPartsB := false }

/-- Claim C4, counterexample: two collections that Equals declares equal
although their element counts differ (0 versus 1): the both-empty
shortcut of the source (line 1049) returns TRUE before the count and the
pairwise checks run.  The claim states that equal collections have
identical element counts, so it fails here. -/
theorem claimC4_counterexample :
    geomEquals (.coll false false [])
        (.coll false false [.leaf emptyPointLeaf]) = true
      ∧ getNumGeometriesG (.coll false false [])
          ≠ getNumGeometriesG (.coll false false [.leaf emptyPointLeaf]) :=
  ⟨rfl, by decide⟩

/-- Claim C4 (amended): Equals on two collections returns true only if
their type tags (equivalently, their dimensionality flag pairs) agree
and either both collections are entirely empty (the shortcut of source
line 1049, which ignores counts and contents) or their element counts
agree and the elements are pairwise equal at every stored index. -/
theorem claimC4_equals_only_if (z1 m1 z2 m2 : Bool) (s1 s2 : List Geom)
    (h : geomEquals (.coll z1 m1 s1) (.coll z2 m2 s2) = true) :
    (z1 = z2 ∧ m1 = m2) ∧
      ((isEmptyL s1 = true ∧ isEmptyL s2 = true) ∨
        (s1.length = s2.length ∧
          ∀ i : Nat, ∀ h1 : i < s1.length, ∀ h2 : i < s2.length,
            geomEquals (s1.get ⟨i, h1⟩) (s2.get ⟨i, h2⟩) = true)) := by
  simp only [geomEquals] at h
  split at h
  · exact absurd h (by simp)
  · rename_i hne
    have hcode : getGeometryTypeCode 7 z1 m1 = getGeometryTypeCode 7 z2 m2 := by
      simpa [bne_iff_ne] using hne
    refine ⟨typeCode_inj z1 m1 z2 m2 hcode, ?_⟩
    split at h
    · rename_i hemp
      left
      simpa [Bool.and_eq_true] using hemp
    · split at h
      · exact absurd h (by simp)
      · right
        exact (geomListEquals_iff s1 s2).1 h

/-- Witness for the amended C4 at two equal one-element collections. -/
theorem claimC4_witness :
    (false = false ∧ false = false) ∧
      ((isEmptyL [Geom.leaf emptyPointLeaf] = true
          ∧ isEmptyL [Geom.leaf emptyPointLeaf] = true) ∨
        ([Geom.leaf emptyPointLeaf].length = [Geom.leaf emptyPointLeaf].length ∧
          ∀ i : Nat, ∀ h1 : i < [Geom.leaf emptyPointLeaf].length,
            ∀ h2 : i < [Geom.leaf emptyPointLeaf].length,
              geomEquals ([Geom.leaf emptyPointLeaf].get ⟨i, h1⟩)
                ([Geom.leaf emptyPointLeaf].get ⟨i, h2⟩) = true)) :=
  claimC4_equals_only_if false false false false
    [.leaf emptyPointLeaf] [.leaf emptyPointLeaf] rfl

/-- Unfolding of the removeEmptyParts element loop on a cons cell. -/
theorem removeEmptyPartsL_cons (lrep : LeafGeom → LeafGeom) (g : Geom)
    (gs : List Geom) :
    removeEmptyPartsL lrep (g :: gs) =
      if isEmptyG (removeEmptyPartsG lrep g) then removeEmptyPartsL lrep gs
      else removeEmptyPartsG lrep g :: removeEmptyPartsL lrep gs := rfl

/-- Every survivor of the removeEmptyParts element loop is the recursive
strip of some original element and is non-empty. -/
theorem mem_removeEmptyPartsL (lrep : LeafGeom → LeafGeom) :
    ∀ gs : List Geom, ∀ g2 ∈ removeEmptyPartsL lrep gs,
      ∃ g ∈ gs, g2 = removeEmptyPartsG lrep g ∧ isEmptyG g2 = false := by
  intro gs
  induction gs with
  | nil => simp [removeEmptyPartsL]
  | cons g gs ih =>
    intro g2 hg2
    rw [removeEmptyPartsL_cons] at hg2
    split at hg2
    · obtain ⟨g0, hg0, he⟩ := ih g2 hg2
      exact ⟨g0, by simp [hg0], he⟩
    · rename_i hne
      rcases List.mem_cons.1 hg2 with heq | hmem
      · exact ⟨g, by simp, heq, by rw [heq]; simpa using hne⟩
      · obtain ⟨g0, hg0, he⟩ := ih g2 hmem
        exact ⟨g0, by simp [hg0], he⟩

/-- A list whose members are all non-empty fixed points of the recursive
strip is itself a fixed point of the element loop. -/
theorem removeEmptyPartsL_fixed (lrep : LeafGeom → LeafGeom) :
    ∀ l2 : List Geom,
      (∀ g2 ∈ l2, removeEmptyPartsG lrep g2 = g2 ∧ isEmptyG g2 = false) →
      removeEmptyPartsL lrep l2 = l2 := by
  intro l2
  induction l2 with
  | nil => intro _; rfl
  | cons g gs ih =>
    intro hall
    have hg := hall g (by simp)
    rw [removeEmptyPartsL_cons, hg.1, hg.2]
    simp [ih (fun x hx => hall x (by simp [hx]))]

/-- A list whose members are all non-empty and without empty parts makes
the hasEmptyParts element loop return false. -/
theorem hasEmptyPartsL_false :
    ∀ l2 : List Geom,
      (∀ g2 ∈ l2, isEmptyG g2 = false ∧ hasEmptyPartsG g2 = false) →
      hasEmptyPartsL l2 = false := by
  intro l2
  induction l2 with
  | nil => intro _; rfl
  | cons g gs ih =>
    intro hall
    have hg := hall g (by simp)
    simp [hasEmptyPartsL, hg.1, hg.2,
      ih (fun x hx => hall x (by simp [hx]))]

/-- Claim C7: removeEmptyParts applied twice yields the same geometry as
applied once, and after one application hasEmptyParts returns false — the
strip first recurses into each element and then drops the element when it
is empty afterwards.  The leaf capability `lrep` is assumed idempotent
and to leave no leaf-level empty parts, the contract the spec states for
the external element kinds. -/
theorem claimC7_removeEmptyParts (lrep : LeafGeom → LeafGeom)
    (hidem : ∀ l, lrep (lrep l) = lrep l)
    (hhep : ∀ l, (lrep l).hasEmptyPartsB = false) (g : Geom) :
    removeEmptyPartsG lrep (removeEmptyPartsG lrep g)
        = removeEmptyPartsG lrep g
      ∧ hasEmptyPartsG (removeEmptyPartsG lrep g) = false := by
  induction g using Geom.recOnMem with
  | hleaf l => simp [removeEmptyPartsG, hasEmptyPartsG, hidem, hhep]
  | hcoll z m subs ih =>
    constructor
    · simp only [removeEmptyPartsG]
      congr 1
      apply removeEmptyPartsL_fixed
      intro g2 hg2
      obtain ⟨g0, hg0, rfl, hne⟩ := mem_removeEmptyPartsL lrep subs g2 hg2
      exact ⟨(ih g0 hg0).1, hne⟩
    · simp only [removeEmptyPartsG, hasEmptyPartsG]
      apply hasEmptyPartsL_false
      intro g2 hg2
      obtain ⟨g0, hg0, rfl, hne⟩ := mem_removeEmptyPartsL lrep subs g2 hg2
      exact ⟨hne, (ih g0 hg0).2⟩

/-- The concrete leaf strip used by the witness: clearing the leaf-level
empty-parts marker, an idempotent capability. -/
def lrepClear (l : LeafGeom) : LeafGeom := { l with hasEmptyPartsB := false }

/-- Witness for C7 at a collection holding one empty leaf. -/
theorem claimC7_witness :
    removeEmptyPartsG lrepClear (removeEmptyPartsG lrepClear
        (.coll false false [.leaf emptyPointLeaf]))
        = removeEmptyPartsG lrepClear (.coll false false [.leaf emptyPointLeaf])
      ∧ hasEmptyPartsG (removeEmptyPartsG lrepClear
          (.coll false false [.leaf emptyPointLeaf])) = false :=
  claimC7_removeEmptyParts lrepClear (fun _ => rfl) (fun _ => rfl)
    (.coll false false [.leaf emptyPointLeaf])

/-- A 4-byte write always writes exactly 4 bytes. -/
theorem write32_length (bo : ByteOrder) (v : Nat) :
    (write32 bo v).length = 4 := by
  simp [write32, le32]

/-- The WkbSize accumulation loop is the sum of the element sizes. -/
theorem wkbSizeL_eq_sum (subs : List Geom) :
    wkbSizeL subs = (subs.map wkbSizeG).sum := by
  induction subs with
  | nil => rfl
  | cons g gs ih => simp [wkbSizeL, ih]

/-- The element serialization loop writes exactly the summed element
sizes whenever each element does. -/
theorem exportToWkbSubs_length (lexp : WkbExportOptions → LeafGeom → List Nat)
    (opts : WkbExportOptions) :
    ∀ gs : List Geom,
      (∀ g ∈ gs, (exportToWkbG lexp opts g).length = wkbSizeG g) →
      (exportToWkbSubs lexp opts gs).length = wkbSizeL gs := by
  intro gs
  induction gs with
  | nil => intro _; rfl
  | cons a as1 ih =>
    intro hall
    simp [exportToWkbSubs, wkbSizeL, hall a (by simp),
      ih (fun x hx => hall x (by simp [hx]))]

/-- exportToWkb writes exactly WkbSize bytes, for every geometry, every
byte order and every dialect, whenever the leaf serializer does. -/
theorem exportToWkbG_length (lexp : WkbExportOptions → LeafGeom → List Nat)
    (hlexp : ∀ o l, (lexp o l).length = l.wkbSize) :
    ∀ g : Geom, ∀ opts : WkbExportOptions,
      (exportToWkbG lexp opts g).length = wkbSizeG g := by
  intro g
  induction g using Geom.recOnMem with
  | hleaf l =>
    intro opts
    simp [exportToWkbG, wkbSizeG, hlexp]
  | hcoll z m subs ih =>
    intro opts
    have hsub : ∀ o2 : WkbExportOptions,
        (exportToWkbSubs lexp o2 subs).length = wkbSizeL subs :=
      fun o2 => exportToWkbSubs_length lexp o2 subs (fun g hg => ih g hg o2)
    simp only [exportToWkbG, wkbSizeG, List.length_cons, List.length_append,
      write32_length, hsub]
    omega

/-- The running write offset ends at 9 plus the summed element sizes. -/
theorem exportFinalOffset_eq (subs : List Geom) :
    exportFinalOffset subs = 9 + wkbSizeL subs := by
  suffices h : ∀ a : Nat,
      subs.foldl (fun o g => o + wkbSizeG g) a = a + wkbSizeL subs by
    simpa [exportFinalOffset] using h 9
  induction subs with
  | nil => intro a; simp [wkbSizeL]
  | cons g gs ih =>
    intro a
    simp only [List.foldl_cons, wkbSizeL, ih]
    omega

/-- Claim C3: the binary size of a collection is 9 preamble bytes plus
the sum of every element's own WkbSize; the final write offset of
exportToWkb (which starts at 9 and advances by each element's WkbSize)
equals WkbSize; and exportToWkb writes exactly WkbSize bytes — for every
byte order and every dialect, whenever the external leaf serializer
writes its own declared size. -/
theorem claimC3_wkbSize_matches_export (opts : WkbExportOptions)
    (z m : Bool) (subs : List Geom)
    (lexp : WkbExportOptions → LeafGeom → List Nat)
    (hlexp : ∀ o l, (lexp o l).length = l.wkbSize) :
    wkbSizeG (.coll z m subs) = 9 + (subs.map wkbSizeG).sum
      ∧ exportFinalOffset subs = wkbSizeG (.coll z m subs)
      ∧ (exportToWkbG lexp opts (.coll z m subs)).length
          = wkbSizeG (.coll z m subs) := by
  refine ⟨?_, ?_, ?_⟩
  · simp [wkbSizeG, wkbSizeL_eq_sum]
  · simp [exportFinalOffset_eq, wkbSizeG]
  · exact exportToWkbG_length lexp hlexp (.coll z m subs) opts

/-- The concrete leaf serializer of the C3 witness: a run of zero bytes
of the declared length. -/
def lexpZeros (o : WkbExportOptions) (l : LeafGeom) : List Nat :=
  List.replicate l.wkbSize 0

/-- Witness for C3 at a one-element collection in the ISO dialect with
little-endian order. -/
theorem claimC3_witness :
    wkbSizeG (.coll false false [.leaf emptyPointLeaf])
        = 9 + ([Geom.leaf emptyPointLeaf].map wkbSizeG).sum
      ∧ exportFinalOffset [.leaf emptyPointLeaf]
          = wkbSizeG (.coll false false [.leaf emptyPointLeaf])
      ∧ (exportToWkbG lexpZeros ⟨.NDR, .iso⟩
            (.coll false false [.leaf emptyPointLeaf])).length
          = wkbSizeG (.coll false false [.leaf emptyPointLeaf]) :=
  claimC3_wkbSize_matches_export ⟨.NDR, .iso⟩ false false
    [.leaf emptyPointLeaf] lexpZeros
    (fun o l => by simp [lexpZeros])

/-- isCompatibleSubType of the base class (source lines 1454-1459):
accept every sub-geometry type. -/
def isCompatibleSubTypeBase : Nat → Bool := fun _ => true

/-- The restricted points-only policy of the spec (a derived-class
override, outside this source file, modelled from the spec): only the
flat point tag 1 is accepted. -/
def polPointsOnly : Nat → Bool := fun t => t == 1

/-- A non-empty line-string leaf used by the concrete examples. -/
def lineLeaf : LeafGeom :=
  { tag := 2, z := false, m := false, isEmptyB := false, wkbSize := 9,
    hasEmptyPartsB := false }

/-- Claim C6: when the compatibility policy rejects the type tag of the
new element, addGeometryDirectly returns UNSUPPORTED_GEOMETRY_TYPE with
the whole collection state — count, element sequence, dimensionality
flags — unchanged, so ownership stays with the caller; the clone-based
addGeometry returns the same error with the same unchanged state, the
clone being destroyed (in the model: not stored anywhere). -/
theorem claimC6_policy_rejection (pol : Nat → Bool) (st : CollState) (g : Geom)
    (h : pol (getGeometryTypeG g) = false) :
    addGeometryDirectly pol st g = (.UNSUPPORTED_GEOMETRY_TYPE, st)
      ∧ addGeometry pol st g = (.UNSUPPORTED_GEOMETRY_TYPE, st) := by
  constructor
  · simp [addGeometryDirectly, h]
  · simp [addGeometry, cloneG, addGeometryDirectly, h]

/-- Witness for C6: a points-only collection rejects a line string. -/
theorem claimC6_witness :
    addGeometryDirectly polPointsOnly emptyGC (.leaf lineLeaf)
        = (.UNSUPPORTED_GEOMETRY_TYPE, emptyGC)
      ∧ addGeometry polPointsOnly emptyGC (.leaf lineLeaf)
        = (.UNSUPPORTED_GEOMETRY_TYPE, emptyGC) :=
  claimC6_policy_rejection polPointsOnly emptyGC (.leaf lineLeaf) rfl

/-- Claim C5: after each successfully parsed WKT sub-element, an outer
collection that is measured but not 3D rejects a non-measured element
with CORRUPT_DATA (leaving the collection untouched; the element is then
destroyed by the caller); in every other case — in particular under a 3D
mismatch — the step is exactly the addGeometryDirectly insertion path of
the direct API. -/
theorem claimC5_wkt_measured_check (pol : Nat → Bool) (st : CollState)
    (g : Geom) :
    (st.flags3D = false → st.flagsM = true → isMeasuredG g = false →
        wktAfterParse pol st g = (.CORRUPT_DATA, st))
      ∧ (st.flags3D = true ∨ st.flagsM = false ∨ isMeasuredG g = true →
        wktAfterParse pol st g = addGeometryDirectly pol st g) := by
  constructor
  · intro h1 h2 h3
    simp [wktAfterParse, h1, h2, h3]
  · intro h
    rcases h with h | h | h <;> simp [wktAfterParse, h]

/-- A measured, non-3D collection state for the C5 witness. -/
def stMeasured : CollState := { emptyGC with flagsM := true }

/-- Witness for C5: the measured-but-not-3D collection rejects a
non-measured element with CORRUPT_DATA. -/
theorem claimC5_witness :
    wktAfterParse isCompatibleSubTypeBase stMeasured (.leaf emptyPointLeaf)
      = (.CORRUPT_DATA, stMeasured) :=
  (claimC5_wkt_measured_check isCompatibleSubTypeBase stMeasured
    (.leaf emptyPointLeaf)).1 rfl rfl rfl

/-- Erasing the slot that was just overwritten gives the same list as
erasing the original slot. -/
theorem eraseIdx_set_same (l : List (Option Geom)) :
    ∀ (i : Nat) (x : Option Geom), (l.set i x).eraseIdx i = l.eraseIdx i := by
  induction l with
  | nil => intro i x; simp
  | cons a as ih =>
    intro i x
    cases i with
    | zero => simp
    | succ j => simp [ih j x]

/-- Claim C8: stealGeometry returns null and leaves the collection
unchanged outside [0, count); inside the range it hands the stored
element at the index to the caller (without destroying it), the count
drops by exactly one, and the remaining elements keep their relative
order: the sequence is exactly the old one with the stolen slot erased
(elements above the index shift down one, the others stay). -/
theorem claimC8_stealGeometry (st : CollState) (i : Int) :
    ((i < 0 ∨ (st.nGeomCount : Int) ≤ i) → stealGeometry st i = (none, st))
      ∧ (0 ≤ i → i < (st.nGeomCount : Int) →
          (stealGeometry st i).1 = st.papoGeoms.getD i.toNat none
            ∧ (stealGeometry st i).2.nGeomCount = st.nGeomCount - 1
            ∧ (stealGeometry st i).2.papoGeoms
                = st.papoGeoms.eraseIdx i.toNat) := by
  constructor
  · intro h
    have hc : (decide (i < 0) || decide ((st.nGeomCount : Int) ≤ i)) = true := by
      rcases h with h | h <;> simp [h]
    rw [stealGeometry, if_pos hc]
  · intro h0 hi
    have hc : ¬((decide (i < 0) || decide ((st.nGeomCount : Int) ≤ i)) = true) := by
      simp
      omega
    have hc2 : ¬((decide (i < -1) || decide ((st.nGeomCount : Int) ≤ i)) = true) := by
      simp
      omega
    have hc3 : ¬((i == -1) = true) := by
      simp
      omega
    rw [stealGeometry, if_neg hc]
    simp only [removeGeometry, if_neg hc2, if_neg hc3]
    simp [eraseIdx_set_same]

/-- A two-element collection state for the C8 witness. -/
def stTwo : CollState :=
  { emptyGC with nGeomCount := 2
                 papoGeoms := [some (.leaf lineLeaf), some (.leaf emptyPointLeaf)] }

/-- Witness for C8: stealing index 0 of a two-element collection. -/
theorem claimC8_witness :
    (stealGeometry stTwo 0).1 = stTwo.papoGeoms.getD (Int.toNat 0) none
      ∧ (stealGeometry stTwo 0).2.nGeomCount = stTwo.nGeomCount - 1
      ∧ (stealGeometry stTwo 0).2.papoGeoms
          = stTwo.papoGeoms.eraseIdx (Int.toNat 0) :=
  (claimC8_stealGeometry stTwo 0).2 (by decide) (by decide)

/-- Claim C9: when the collection assignment is rejected because some
source element fails the compatibility policy of the destination, the
element sequence and count of the destination stay what they were — but
the inherited base-geometry state (dimensionality flags, spatial
reference) has already been overwritten from the source before the
compatibility scan, so the rejected assignment is not atomic. -/
theorem claimC9_assign_not_atomic (pol : Nat → Bool) (dst src : CollState)
    (hne : beqCollState dst src = false)
    (hbad : (src.papoGeoms.take src.nGeomCount).all
        (fun og => og.all (fun g => pol (getGeometryTypeG g))) = false) :
    assignOp pol dst src =
      { dst with flags3D := src.flags3D, flagsM := src.flagsM,
                 srs := src.srs } := by
  simp [assignOp, hne, hbad]

/-- A source collection state holding one line string, 3D-flagged and
with a spatial reference, for the C9 witness. -/
def srcLine : CollState :=
  { emptyGC with nGeomCount := 1, papoGeoms := [some (.leaf lineLeaf)]
                 flags3D := true, srs := some 4326 }

/-- Witness for C9: assigning the line-string collection to a points-only
destination is rejected, yet the destination base state is already
overwritten. -/
theorem claimC9_witness :
    assignOp polPointsOnly emptyGC srcLine =
      { emptyGC with flags3D := srcLine.flags3D, flagsM := srcLine.flagsM,
                     srs := srcLine.srs } :=
  claimC9_assign_not_atomic polPointsOnly emptyGC srcLine rfl rfl

/-- A leaf decoder that always fails, a trivial concrete instantiation of
the external createFromWkb parameter for concrete runs. -/
def decNever : WkbLeafDecoder := fun _ _ _ => .error .FAILURE

/-- A WKT preamble that always fails, a trivial concrete instantiation. -/
def ppreNever : WktPreambleFn := fun _ => .error .FAILURE

/-- A WKT element parser that always fails, a trivial concrete
instantiation. -/
def wdecNever : WktLeafDecoder := fun _ => .error .FAILURE

/-- Claim C2: a WKB or WKT decode call entered at recursion level 32
fails with CORRUPT_DATA before consuming any byte or token and before
mutating the collection, for every input, dialect and policy; and a call
at any level below 32 is not rejected by this guard — it proceeds
directly to the decode body (whose own outcome the guard does not
constrain). -/
theorem claimC2_recursion_guard :
    (∀ (pol : Nat → Bool) (dec : WkbLeafDecoder) (fuel : Nat)
        (paby : List Nat) (nSize : Option Nat) (variant : WkbVariant)
        (st : CollState),
      importFromWkbInternal pol dec fuel paby nSize 32 variant st
        = (.CORRUPT_DATA, st, 0))
    ∧ (∀ (pol : Nat → Bool) (ppre : WktPreambleFn) (wdec : WktLeafDecoder)
        (fuel : Nat) (input : List Tok) (st : CollState),
      importFromWktInternal pol ppre wdec fuel input 32 st
        = (.CORRUPT_DATA, st, input))
    ∧ (∀ (pol : Nat → Bool) (dec : WkbLeafDecoder) (fuel : Nat)
        (paby : List Nat) (nSize : Option Nat) (lvl : Nat)
        (variant : WkbVariant) (st : CollState), lvl < 32 →
      importFromWkbInternal pol dec (fuel + 1) paby nSize lvl variant st
        = importFromWkbBody pol dec
            (fun pa ns sub =>
              importFromWkbInternal pol dec fuel pa ns (lvl + 1) variant sub)
            paby nSize variant st)
    ∧ (∀ (pol : Nat → Bool) (ppre : WktPreambleFn) (wdec : WktLeafDecoder)
        (fuel : Nat) (input : List Tok) (lvl : Nat) (st : CollState),
      lvl < 32 →
      importFromWktInternal pol ppre wdec (fuel + 1) input lvl st
        = importFromWktBody pol ppre wdec
            (fun inp sub =>
              importFromWktInternal pol ppre wdec fuel inp (lvl + 1) sub)
            fuel input st) := by
  refine ⟨?_, ?_, ?_, ?_⟩
  · intro pol dec fuel paby nSize variant st
    cases fuel with
    | zero => rfl
    | succ n => rfl
  · intro pol ppre wdec fuel input st
    cases fuel with
    | zero => rfl
    | succ n => rfl
  · intro pol dec fuel paby nSize lvl variant st hlt
    have hb : (lvl == 32) = false := by
      simp
      omega
    simp [importFromWkbInternal, hb]
  · intro pol ppre wdec fuel input lvl st hlt
    have hb : (lvl == 32) = false := by
      simp
      omega
    simp [importFromWktInternal, hb]

/-- Witness for C2: the guard passes a level-5 WKB call through to the
body, and a level-32 WKT call fails with CORRUPT_DATA leaving the state
and the input untouched. -/
theorem claimC2_witness :
    importFromWkbInternal isCompatibleSubTypeBase decNever 3 [] none 5 .iso
        emptyGC
      = importFromWkbBody isCompatibleSubTypeBase decNever
          (fun pa ns sub =>
            importFromWkbInternal isCompatibleSubTypeBase decNever 2 pa ns 6
              .iso sub)
          [] none .iso emptyGC
    ∧ importFromWktInternal isCompatibleSubTypeBase ppreNever wdecNever 4 []
        32 emptyGC
      = (.CORRUPT_DATA, emptyGC, []) :=
  ⟨claimC2_recursion_guard.2.2.1 isCompatibleSubTypeBase decNever 2 [] none 5
      .iso emptyGC (by omega),
   claimC2_recursion_guard.2.1 isCompatibleSubTypeBase ppreNever wdecNever 4
      [] emptyGC⟩

/-- The C1 failing input: a valid little-endian GEOMETRYCOLLECTION
preamble (marker 1, type 7, count 1) declaring one sub-geometry and a
declared length of 18 bytes, followed by 9 bytes for the sub-geometry
whose own byte-order marker is the invalid byte 5. -/
def c1FailingBytes : List Nat :=
  [1, 7, 0, 0, 0, 1, 0, 0, 0, 5, 0, 0, 0, 0, 0, 0, 0, 0]

/-- Claim C1 at the failing input: the import fails mid-loop at the type
peek of element 0 (which the source returns without truncating, lines
593-595), yet the collection keeps nGeomCount = 1 and its only stored
slot — index 0, inside [0, nGeomCount) — still holds null.  The claim
requires the count to equal the number of successfully stored elements
(0 here) and the stored range to hold no null, so the code contradicts
it. -/
theorem claimC1_null_slot_on_failure :
    (importFromWkb isCompatibleSubTypeBase decNever 33 c1FailingBytes
        (some 18) .oldOgc emptyGC).1 = .CORRUPT_DATA
      ∧ (importFromWkb isCompatibleSubTypeBase decNever 33 c1FailingBytes
          (some 18) .oldOgc emptyGC).2.1.nGeomCount = 1
      ∧ (importFromWkb isCompatibleSubTypeBase decNever 33 c1FailingBytes
          (some 18) .oldOgc emptyGC).2.1.papoGeoms = [none] :=
  ⟨rfl, rfl, rfl⟩
